import Mathlib

/-!
Verification of the authenticated API client and token store of the
QoE-Management frontend (src/frontend/src/services/api.ts and
src/frontend/src/stores/authStore.ts), as a shallow embedding in Lean.
-/

namespace QoE

/-- JS runtime values as relevant to the auth plumbing: undefined, null,
strings, integers, and objects as ordered field lists. -/
inductive JsVal where
  | undef
  | jnull
  | str (s : String)
  | num (n : Int)
  | obj (fields : List (String × JsVal))
deriving Repr

/-- JS exceptions thrown in the interceptor code paths. -/
inductive JsErr where
  | typeError
  | badParse
deriving DecidableEq, Repr

/-- Field lookup in a JS object: a missing property reads as undefined. -/
def lookupField : List (String × JsVal) → String → JsVal
  | [], _ => .undef
  | (k, v) :: rest, key => if k = key then v else lookupField rest key

/-- JS property read v.k: throws a TypeError when the base is undefined or
null; primitive bases have no own properties of interest, so the read yields
undefined; object bases look the field up. -/
def jsGet : JsVal → String → Except JsErr JsVal
  | .undef, _ => .error .typeError
  | .jnull, _ => .error .typeError
  | .str _, _ => .ok .undef
  | .num _, _ => .ok .undef
  | .obj fs, k => .ok (lookupField fs k)

/-- JS truthiness: undefined, null, the empty string and 0 are falsy. -/
def truthy : JsVal → Bool
  | .undef => false
  | .jnull => false
  | .str s => s ≠ ""
  | .num n => n ≠ 0
  | .obj _ => true

/-- JS string coercion as performed by a template literal. -/
def jsToString : JsVal → String
  | .undef => "undefined"
  | .jnull => "null"
  | .str s => s
  | .num n => toString n
  | .obj _ => "[object Object]"

/-- Contents of the localStorage slot under the key auth-store, as observed
through getItem followed by JSON.parse: the key may be missing (getItem
returns null; an empty string is falsy and takes the same path), hold a
string JSON.parse rejects, or hold one that parses to a value. -/
inductive StoredVal where
  | absent
  | malformed
  | parsed (v : JsVal)
deriving Repr

/-- An outbound request configuration: its url, the per-request retry marker
written by the response interceptor, and the Authorization header if any. -/
structure ReqConfig where
  url : String
  retry : Bool
  authorization : Option String
deriving DecidableEq, Repr

/-- The request interceptor of services/api.ts: read the auth-store key,
parse it, and when state.accessToken is truthy attach it as a bearer
credential; every exception inside the try block (JSON.parse failing, or a
TypeError reading state.accessToken) is caught and the config is returned
untouched. -/
def requestInterceptor (store : StoredVal) (config : ReqConfig) : ReqConfig :=
  match store with
  | .absent => config
  | .malformed => config
  | .parsed v =>
    match jsGet v "state" >>= fun st => jsGet st "accessToken" with
    | .error _ => config
    | .ok tok =>
        if truthy tok then
          { config with authorization := some ("Bearer " ++ jsToString tok) }
        else config

/-- The access-token read the request interceptor performs, as a Bool:
true exactly when a truthy state.accessToken is found. -/
def hasTruthyAccess (store : StoredVal) : Bool :=
  match store with
  | .parsed v =>
      match jsGet v "state" >>= fun st => jsGet st "accessToken" with
      | .ok tok => truthy tok
      | .error _ => false
  | _ => false

/-- The refresh token the response interceptor would read from the store
(state.refreshToken when truthy), coerced to a string. -/
def storedRefreshToken (store : StoredVal) : Option String :=
  match store with
  | .parsed v =>
      match jsGet v "state" >>= fun st => jsGet st "refreshToken" with
      | .ok rt => if truthy rt then some (jsToString rt) else none
      | .error _ => none
  | _ => none

/-- The access token stored under state.accessToken when truthy, coerced to
a string. -/
def storedAccessToken (store : StoredVal) : Option String :=
  match store with
  | .parsed v =>
      match jsGet v "state" >>= fun st => jsGet st "accessToken" with
      | .ok tok => if truthy tok then some (jsToString tok) else none
      | .error _ => none
  | _ => none

/-- Field write in a JS object: replace the value of an existing key in
place, or append a new key. -/
def setField : List (String × JsVal) → String → JsVal → List (String × JsVal)
  | [], k, x => [(k, x)]
  | (k', v') :: rest, k, x =>
      if k' = k then (k', x) :: rest else (k', v') :: setField rest k x

/-- Field removal, as JSON.stringify does for a property whose value is
undefined. -/
def removeField : List (String × JsVal) → String → List (String × JsVal)
  | [], _ => []
  | (k', v') :: rest, k =>
      if k' = k then rest else (k', v') :: removeField rest k

/-- Is the value the undefined value? -/
def isUndef : JsVal → Bool
  | .undef => true
  | _ => false

/-- The store update performed on refresh success in services/api.ts:
the assignment authData.state.accessToken = newToken followed by
JSON.stringify(authData) written back to localStorage. JSON.stringify omits
a property whose value is undefined, and a value obtained from JSON.parse
contains no undefined elsewhere, so only the assigned field can be dropped.
Assignment to a primitive base is a silent no-op in non-strict code; the
handler only reaches this update when authData and authData.state are
objects. -/
def updateStateAccessToken (v tok : JsVal) : JsVal :=
  match v with
  | .obj fs =>
      match lookupField fs "state" with
      | .obj sfs =>
          .obj (setField fs "state" (.obj
            (if isUndef tok then removeField sfs "accessToken"
             else setField sfs "accessToken" tok)))
      | _ => v
  | _ => v

/-- The error object an axios rejection handler receives: the request
configuration it was issued with, and the HTTP status of the response when
one was received (none models a network error with no response, so that
error.response?.status reads as undefined). -/
structure ErrObj where
  config : ReqConfig
  status : Option Nat
deriving DecidableEq, Repr

/-- Outcome of the awaited axios.post to the refresh endpoint: resolved
with a response whose data is the given value, or rejected with an error
identified by a number. -/
inductive RefreshOutcome where
  | success (data : JsVal)
  | failure (errId : Nat)
deriving Repr

/-- An exception thrown inside the try block of the response interceptor:
JSON.parse rejecting the stored string, a TypeError from reading a property
of undefined or null, or the rejection of the refresh call itself. -/
inductive ThrownErr where
  | parseError
  | typeError
  | refreshRejected (errId : Nat)
deriving DecidableEq, Repr

/-- What the response interceptor's rejection handler returns: the replay
of the original request with the given configuration, the rejection of the
original error object, or the rejection of an exception thrown inside the
try block. -/
inductive HandlerResult where
  | replayed (cfg : ReqConfig)
  | rejectedOriginal
  | rejectedThrown (e : ThrownErr)
deriving Repr

/-- Observable outcome of one run of the rejection handler: its returned
result, the final auth-store contents, whether a call to the refresh
endpoint was issued, whether the browser was redirected to /login, and the
final state of the original error's request configuration (the handler
mutates its retry marker in place on the fresh-401 path). -/
structure HandlerOutput where
  result : HandlerResult
  store : StoredVal
  refreshCalled : Bool
  redirected : Bool
  errConfigAfter : ReqConfig
deriving Repr

/-- The fulfilled branch of the response interceptor: the identity. -/
def handleResponseSuccess (r : JsVal) : JsVal := r

/-- The rejection handler of the response interceptor in services/api.ts.
When the status is 401 and the request is not yet marked retried, the
marker is set and the handler reads the auth-store key: a missing key falls
through to rejecting the original error; an unparseable one makes
JSON.parse throw into the catch, which removes the key, redirects to
/login and rejects the parse error; likewise a TypeError while reading
state.refreshToken. With a truthy refresh token the handler awaits
axios.post on the refresh endpoint: a rejection lands in the same catch
(key removed, redirect, the refresh error rejected); on success the new
access token is written back to the store, attached as a bearer credential
and the original request is replayed. Every other case rejects the
original error untouched. -/
def handleResponseError (store : StoredVal) (err : ErrObj)
    (refresh : RefreshOutcome) : HandlerOutput :=
  if err.status = some 401 ∧ err.config.retry = false then
    let orig : ReqConfig := { err.config with retry := true }
    match store with
    | .absent =>
        { result := .rejectedOriginal, store := store,
          refreshCalled := false, redirected := false, errConfigAfter := orig }
    | .malformed =>
        { result := .rejectedThrown .parseError, store := .absent,
          refreshCalled := false, redirected := true, errConfigAfter := orig }
    | .parsed v =>
        match jsGet v "state" >>= fun st => jsGet st "refreshToken" with
        | .error _ =>
            { result := .rejectedThrown .typeError, store := .absent,
              refreshCalled := false, redirected := true, errConfigAfter := orig }
        | .ok rt =>
            if truthy rt then
              match refresh with
              | .failure eid =>
                  { result := .rejectedThrown (.refreshRejected eid),
                    store := .absent, refreshCalled := true,
                    redirected := true, errConfigAfter := orig }
              | .success data =>
                  match jsGet data "access_token" with
                  | .error _ =>
                      { result := .rejectedThrown .typeError, store := .absent,
                        refreshCalled := true, redirected := true,
                        errConfigAfter := orig }
                  | .ok newTok =>
                      { result := .replayed { orig with
                          authorization :=
                            some ("Bearer " ++ jsToString newTok) },
                        store := .parsed (updateStateAccessToken v newTok),
                        refreshCalled := true, redirected := false,
                        errConfigAfter := orig }
            else
              { result := .rejectedOriginal, store := store,
                refreshCalled := false, redirected := false,
                errConfigAfter := orig }
  else
    { result := .rejectedOriginal, store := store,
      refreshCalled := false, redirected := false,
      errConfigAfter := err.config }

/-- Number of calls to the refresh endpoint issued when a batch of requests
all receive their first 401 before any refresh resolves. The module state
of services/api.ts holds no in-flight-refresh handle: the only state shared
between rejection handlers is localStorage, so each handler runs
independently against the store contents it read. -/
def concurrentRefreshCalls (store : StoredVal) (errs : List ErrObj)
    (refresh : RefreshOutcome) : Nat :=
  (errs.filter (fun e => (handleResponseError store e refresh).refreshCalled)).length

/-- The in-memory auth store state as declared by the AuthState interface
in stores/authStore.ts: a user profile, a single token field, and a loading
flag. The interface declares no refresh-token field. -/
structure AuthState where
  user : Option JsVal
  token : Option String
  isLoading : Bool
deriving Repr

/-- The logged-out state: user and token cleared, not loading. -/
def loggedOutState : AuthState :=
  { user := none, token := none, isLoading := false }

/-- The state after a successful login in stores/authStore.ts: the
response's user and access_token are stored; nothing else is. -/
def loginSuccessState (respUser : JsVal) (accessTok : String) : AuthState :=
  { user := some respUser, token := some accessTok, isLoading := false }

/-- The logout operation of stores/authStore.ts: remove the raw token key
and reset the state. Returns the new state and the new contents of the
localStorage key token. -/
def logoutOp : AuthState × Option String :=
  (loggedOutState, none)

/-- The value persisted under the auth-store key after a successful login:
zustand persist serialises the partialized state (the user and token
fields) inside its envelope with a version number. -/
def persistedAfterLogin (u : JsVal) (tok : String) : JsVal :=
  .obj [("state", .obj [("user", u), ("token", .str tok)]), ("version", .num 0)]

/-- Names of the methods defined on the authApi object in
services/api.ts. -/
def authApiMethods : List String :=
  ["login", "register", "refreshToken", "getMe", "logout"]

/-- The method name stores/authStore.ts invokes on authApi inside
checkAuth: it calls authApi.me(). -/
def checkAuthMethodName : String := "me"

/-- Why a call on the authApi object fails: the member is not defined on
the object, so invoking it throws a TypeError before any request is sent,
or the underlying HTTP request failed with a status. -/
inductive AuthApiCallErr where
  | undefinedMethod
  | httpError (status : Nat)
deriving DecidableEq, Repr

/-- Invoking authApi[name]() for the identity check: a name not among the
defined methods is undefined and the invocation throws; a defined method
performs its HTTP request, whose outcome is the environment parameter
(for getMe, the result of GET /auth/me). -/
def callAuthApi (name : String) (meOutcome : Except Nat JsVal) :
    Except AuthApiCallErr JsVal :=
  if name ∈ authApiMethods then
    match meOutcome with
    | .ok u => .ok u
    | .error s => .error (.httpError s)
  else .error .undefinedMethod

/-- The checkAuth operation of stores/authStore.ts: read the raw token key;
when absent (or empty, which is falsy) reset to logged out; otherwise await
authApi.me() — on success store the user and keep the token, on any
exception remove the token key and reset to logged out. Returns the new
state and the new contents of the localStorage key token. -/
def checkAuth (lsToken : Option String) (meOutcome : Except Nat JsVal) :
    AuthState × Option String :=
  match lsToken with
  | none => (loggedOutState, none)
  | some t =>
      if t = "" then (loggedOutState, some t)
      else
        match callAuthApi checkAuthMethodName meOutcome with
        | .ok u =>
            ({ user := some u, token := some t, isLoading := false }, some t)
        | .error _ => (loggedOutState, none)

/-- The access token held by the store state: its token field. -/
def storeAccessToken (s : AuthState) : Option String := s.token

/-- The refresh token held by the store state: the AuthState interface of
stores/authStore.ts has no refresh-token field, so no store operation ever
holds one. -/
def storeRefreshToken (_ : AuthState) : Option String := none

/-- Both tokens of the credential pair are set in the store state. -/
def pairFullyPresent (s : AuthState) : Prop :=
  storeAccessToken s ≠ none ∧ storeRefreshToken s ≠ none

/-- Both tokens of the credential pair are absent from the store state. -/
def pairFullyAbsent (s : AuthState) : Prop :=
  storeAccessToken s = none ∧ storeRefreshToken s = none

/-- The two HTTP clients in scope in services/api.ts: the api instance
created by axios.create, and the bare top-level axios export. -/
inductive HttpClient where
  | api
  | bareAxios
deriving DecidableEq, Repr

/-- The clients on which interceptors are registered:
api.interceptors.request.use and api.interceptors.response.use are called
on the api instance only; nothing registers an interceptor on the bare
axios export. -/
def interceptedClients : List HttpClient := [.api]

/-- Whether a client's responses pass through the response interceptor
(whose rejection branch is handleResponseError): only clients in
interceptedClients do. -/
def responseInterceptorApplies (c : HttpClient) : Bool :=
  c ∈ interceptedClients

/-- An outbound HTTP call: which client issues it, its path, its JSON body
and its Authorization header. -/
structure OutboundCall where
  client : HttpClient
  path : String
  body : JsVal
  authorization : Option String
deriving Repr

/-- The refresh call issued inside the rejection handler:
axios.post(API_BASE_URL + "/api/v1/auth/refresh", with body field
refresh_token) — it goes through the bare axios export with no config
argument, so it carries no Authorization header. -/
def refreshCall (rt : JsVal) : OutboundCall :=
  { client := .bareAxios, path := "/api/v1/auth/refresh",
    body := .obj [("refresh_token", rt)], authorization := none }

/-- Does the slot hold nothing (the state after removeItem)? -/
def isAbsent : StoredVal → Bool
  | .absent => true
  | _ => false

/-- A store seeded with a full credential pair under the field names the
interceptors of services/api.ts read. -/
def seededStore : StoredVal :=
  .parsed (.obj [("state", .obj [("accessToken", .str "A1"),
                                 ("refreshToken", .str "R1")]),
                 ("version", .num 0)])

/-- A first request configuration before any retry. -/
def projectsReq : ReqConfig :=
  { url := "/projects", retry := false, authorization := some "Bearer A1" }

/-- A second request configuration before any retry. -/
def documentsReq : ReqConfig :=
  { url := "/documents", retry := false, authorization := some "Bearer A1" }

/-- The first request rejected with a 401 response. -/
def projects401 : ErrObj := { config := projectsReq, status := some 401 }

/-- The second request rejected with a 401 response. -/
def documents401 : ErrObj := { config := documentsReq, status := some 401 }

/-- A refresh response body that rotates the refresh token. -/
def rotatedRefreshData : JsVal :=
  .obj [("access_token", .str "A2"), ("refresh_token", .str "R2")]

/-!
Branch lemmas for the rejection handler, one per code path of the
response interceptor, and the claim theorems.
-/

/-- A rejection whose status is not a first 401 falls through to rejecting
the original error with nothing touched. -/
theorem handle_not_fresh401 (store : StoredVal) (err : ErrObj)
    (refresh : RefreshOutcome)
    (h : ¬ (err.status = some 401 ∧ err.config.retry = false)) :
    handleResponseError store err refresh =
      { result := .rejectedOriginal, store := store, refreshCalled := false,
        redirected := false, errConfigAfter := err.config } := by
  unfold handleResponseError
  rw [if_neg h]

/-- First 401 with the auth-store key missing: the original error is
rejected after the retry marker is set; no refresh, no redirect. -/
theorem handle_fresh401_absent (err : ErrObj) (refresh : RefreshOutcome)
    (hs : err.status = some 401) (hr : err.config.retry = false) :
    handleResponseError .absent err refresh =
      { result := .rejectedOriginal, store := .absent, refreshCalled := false,
        redirected := false,
        errConfigAfter := { err.config with retry := true } } := by
  unfold handleResponseError
  rw [if_pos ⟨hs, hr⟩]

/-- First 401 with an unparseable auth-store value: JSON.parse throws, the
catch removes the key, redirects, and rejects the parse error. -/
theorem handle_fresh401_malformed (err : ErrObj) (refresh : RefreshOutcome)
    (hs : err.status = some 401) (hr : err.config.retry = false) :
    handleResponseError .malformed err refresh =
      { result := .rejectedThrown .parseError, store := .absent,
        refreshCalled := false, redirected := true,
        errConfigAfter := { err.config with retry := true } } := by
  unfold handleResponseError
  rw [if_pos ⟨hs, hr⟩]

/-- First 401 where reading state.refreshToken throws a TypeError: the
catch removes the key, redirects, and rejects the TypeError. -/
theorem handle_fresh401_read_error (v : JsVal) (err : ErrObj)
    (refresh : RefreshOutcome) (jerr : JsErr)
    (hs : err.status = some 401) (hr : err.config.retry = false)
    (hv : (jsGet v "state" >>= fun st => jsGet st "refreshToken") = .error jerr) :
    handleResponseError (.parsed v) err refresh =
      { result := .rejectedThrown .typeError, store := .absent,
        refreshCalled := false, redirected := true,
        errConfigAfter := { err.config with retry := true } } := by
  unfold handleResponseError
  rw [if_pos ⟨hs, hr⟩]
  simp only [hv]

/-- First 401 where state.refreshToken reads as a falsy value: the refresh
branch is skipped and the original error is rejected with the store
untouched. -/
theorem handle_fresh401_falsy_rt (v : JsVal) (err : ErrObj)
    (refresh : RefreshOutcome) (rt : JsVal)
    (hs : err.status = some 401) (hr : err.config.retry = false)
    (hv : (jsGet v "state" >>= fun st => jsGet st "refreshToken") = .ok rt)
    (ht : truthy rt = false) :
    handleResponseError (.parsed v) err refresh =
      { result := .rejectedOriginal, store := .parsed v,
        refreshCalled := false, redirected := false,
        errConfigAfter := { err.config with retry := true } } := by
  unfold handleResponseError
  rw [if_pos ⟨hs, hr⟩]
  simp only [hv, ht]
  rfl

/-- First 401 with a truthy refresh token and a failing refresh call: the
catch removes the key, redirects, and rejects the refresh error. -/
theorem handle_fresh401_refresh_failure (v : JsVal) (err : ErrObj)
    (eid : Nat) (rt : JsVal)
    (hs : err.status = some 401) (hr : err.config.retry = false)
    (hv : (jsGet v "state" >>= fun st => jsGet st "refreshToken") = .ok rt)
    (ht : truthy rt = true) :
    handleResponseError (.parsed v) err (.failure eid) =
      { result := .rejectedThrown (.refreshRejected eid), store := .absent,
        refreshCalled := true, redirected := true,
        errConfigAfter := { err.config with retry := true } } := by
  unfold handleResponseError
  rw [if_pos ⟨hs, hr⟩]
  simp only [hv, ht]
  rfl

/-- First 401 with a truthy refresh token and a successful refresh call:
the response's access_token is written into the store, attached as a
bearer credential, and the original request is replayed. -/
theorem handle_fresh401_refresh_success (v : JsVal) (err : ErrObj)
    (data newTok rt : JsVal)
    (hs : err.status = some 401) (hr : err.config.retry = false)
    (hv : (jsGet v "state" >>= fun st => jsGet st "refreshToken") = .ok rt)
    (ht : truthy rt = true)
    (hdata : jsGet data "access_token" = .ok newTok) :
    handleResponseError (.parsed v) err (.success data) =
      { result := .replayed { err.config with retry := true, authorization := some ("Bearer " ++ jsToString newTok) },
        store := .parsed (updateStateAccessToken v newTok),
        refreshCalled := true, redirected := false,
        errConfigAfter := { err.config with retry := true } } := by
  unfold handleResponseError
  rw [if_pos ⟨hs, hr⟩]
  simp only [hv, ht, hdata]
  rfl

/-- First 401 with a truthy refresh token and a successful refresh call
whose response data is null or undefined: reading access_token throws a
TypeError into the catch, which removes the key, redirects, and rejects
it. -/
theorem handle_fresh401_data_read_error (v : JsVal) (err : ErrObj)
    (data rt : JsVal) (jerr : JsErr)
    (hs : err.status = some 401) (hr : err.config.retry = false)
    (hv : (jsGet v "state" >>= fun st => jsGet st "refreshToken") = .ok rt)
    (ht : truthy rt = true)
    (hdata : jsGet data "access_token" = .error jerr) :
    handleResponseError (.parsed v) err (.success data) =
      { result := .rejectedThrown .typeError, store := .absent,
        refreshCalled := true, redirected := true,
        errConfigAfter := { err.config with retry := true } } := by
  unfold handleResponseError
  rw [if_pos ⟨hs, hr⟩]
  simp only [hv, ht, hdata]
  rfl

/-- Destructuring a store that holds a truthy refresh token: it is a
parsed value whose state.refreshToken reads successfully as a truthy
value stringifying to the token. -/
theorem storedRefreshToken_some (store : StoredVal) (rt : String)
    (h : storedRefreshToken store = some rt) :
    ∃ v rtv, store = .parsed v ∧
      (jsGet v "state" >>= fun st => jsGet st "refreshToken") = .ok rtv ∧
      truthy rtv = true ∧ jsToString rtv = rt := by
  cases store with
  | absent => simp [storedRefreshToken] at h
  | malformed => simp [storedRefreshToken] at h
  | parsed v =>
    simp only [storedRefreshToken] at h
    cases hv : (jsGet v "state" >>= fun st => jsGet st "refreshToken") with
    | error jerr => rw [hv] at h; simp at h
    | ok rtv =>
      rw [hv] at h
      dsimp only at h
      cases ht : truthy rtv with
      | false => rw [ht] at h; simp at h
      | true =>
        rw [ht] at h
        simp at h
        exact ⟨v, rtv, rfl, hv, ht, h⟩

/-- Claim C4: a request already carrying the per-request retry marker that
is rejected again (in particular with a second 401) is failed immediately
with no refresh call, and every replayed request carries the marker, so no
request triggers more than one refresh cycle and no retry loop occurs. -/
theorem c4_retry_flag_blocks_second_refresh :
    (∀ store err refresh, err.config.retry = true →
      handleResponseError store err refresh =
        { result := .rejectedOriginal, store := store, refreshCalled := false,
          redirected := false, errConfigAfter := err.config }) ∧
    (∀ store err refresh cfg,
      (handleResponseError store err refresh).result = .replayed cfg →
      cfg.retry = true) := by
  constructor
  · intro store err refresh h
    exact handle_not_fresh401 store err refresh (fun hc => by simp [h] at hc)
  · intro store err refresh cfg h
    by_cases hc : err.status = some 401 ∧ err.config.retry = false
    · cases store with
      | absent =>
          rw [handle_fresh401_absent err refresh hc.1 hc.2] at h
          simp at h
      | malformed =>
          rw [handle_fresh401_malformed err refresh hc.1 hc.2] at h
          simp at h
      | parsed v =>
          cases hv : (jsGet v "state" >>= fun st => jsGet st "refreshToken") with
          | error jerr =>
              rw [handle_fresh401_read_error v err refresh jerr hc.1 hc.2 hv] at h
              simp at h
          | ok rt =>
              cases ht : truthy rt with
              | false =>
                  rw [handle_fresh401_falsy_rt v err refresh rt hc.1 hc.2 hv ht] at h
                  simp at h
              | true =>
                  cases refresh with
                  | failure eid =>
                      rw [handle_fresh401_refresh_failure v err eid rt hc.1 hc.2 hv ht] at h
                      simp at h
                  | success data =>
                      cases hdata : jsGet data "access_token" with
                      | error jerr =>
                          rw [handle_fresh401_data_read_error v err data rt jerr hc.1 hc.2 hv ht hdata] at h
                          simp at h
                      | ok newTok =>
                          rw [handle_fresh401_refresh_success v err data newTok rt hc.1 hc.2 hv ht hdata] at h
                          simp only [HandlerResult.replayed.injEq] at h
                          rw [← h]
    · rw [handle_not_fresh401 store err refresh hc] at h
      simp at h

/-- Claim C4 witness: a concrete already-retried request rejected with a
second 401 is failed immediately, the store kept and no refresh issued. -/
theorem c4_witness :
    handleResponseError seededStore
        { config := { projectsReq with retry := true }, status := some 401 }
        (.failure 3) =
      { result := .rejectedOriginal, store := seededStore,
        refreshCalled := false, redirected := false,
        errConfigAfter := { projectsReq with retry := true } } :=
  c4_retry_flag_blocks_second_refresh.1 seededStore _ _ rfl

/-- Claim C7: a fulfilled response is returned unchanged, and a rejection
whose status is not 401 — any non-401 status, or a network error with no
response at all — is propagated untouched: no retry, no refresh call, no
redirect, and the store is left alone. -/
theorem c7_non401_passthrough :
    (∀ r, handleResponseSuccess r = r) ∧
    (∀ store err refresh, err.status ≠ some 401 →
      handleResponseError store err refresh =
        { result := .rejectedOriginal, store := store, refreshCalled := false,
          redirected := false, errConfigAfter := err.config }) :=
  ⟨fun _ => rfl,
   fun store err refresh h =>
     handle_not_fresh401 store err refresh (fun hc => h hc.1)⟩

/-- Claim C7 witness: a concrete network error (no response received) is
propagated untouched with no refresh call. -/
theorem c7_witness :
    handleResponseError seededStore { config := projectsReq, status := none }
        (.failure 0) =
      { result := .rejectedOriginal, store := seededStore,
        refreshCalled := false, redirected := false,
        errConfigAfter := projectsReq } :=
  c7_non401_passthrough.2 seededStore _ _ (by simp)

/-- Claim C1 counterexample: two concurrent requests that each receive a
first 401 while a valid refresh token is stored do not share a single
refresh call — the handler issues two, not one. -/
theorem c1_counterexample :
    concurrentRefreshCalls seededStore [projects401, documents401]
      (.success rotatedRefreshData) ≠ 1 := by decide

/-- Claim C1 (amended): each of the N concurrent requests that receives a
first 401 while a truthy refresh token is stored issues its own call to
the refresh endpoint — N calls in total, not one — and each request is
replayed with the access token of its own refresh response. -/
theorem c1_each_request_refreshes (store : StoredVal) (errs : List ErrObj)
    (data newTok : JsVal) (rt : String)
    (hstore : storedRefreshToken store = some rt)
    (herrs : ∀ e ∈ errs, e.status = some 401 ∧ e.config.retry = false)
    (hdata : jsGet data "access_token" = .ok newTok) :
    concurrentRefreshCalls store errs (.success data) = errs.length ∧
    ∀ e ∈ errs, (handleResponseError store e (.success data)).result =
      .replayed { e.config with retry := true, authorization := some ("Bearer " ++ jsToString newTok) } := by
  obtain ⟨v, rtv, hveq, hv, ht, _⟩ := storedRefreshToken_some store rt hstore
  subst hveq
  have hrun : ∀ e ∈ errs,
      handleResponseError (.parsed v) e (.success data) =
        { result := .replayed { e.config with retry := true, authorization := some ("Bearer " ++ jsToString newTok) },
          store := .parsed (updateStateAccessToken v newTok),
          refreshCalled := true, redirected := false,
          errConfigAfter := { e.config with retry := true } } := by
    intro e he
    exact handle_fresh401_refresh_success v e data newTok rtv
      (herrs e he).1 (herrs e he).2 hv ht hdata
  constructor
  · unfold concurrentRefreshCalls
    rw [List.filter_eq_self.mpr (fun e he => by rw [hrun e he])]
  · intro e he
    rw [hrun e he]

/-- Claim C1 witness: with a concrete seeded store, two concrete first-401
requests and one concrete refresh response, the number of refresh calls
equals the number of requests (two). -/
theorem c1_witness :
    concurrentRefreshCalls seededStore [projects401, documents401]
      (.success rotatedRefreshData) = 2 :=
  (c1_each_request_refreshes seededStore [projects401, documents401]
    rotatedRefreshData (.str "A2") "R1" rfl (by decide) rfl).1

/-- Claim C3 counterexample: a terminal 401 with no refresh token
available (here, the store as a successful login leaves it) neither
clears the Token Store nor redirects to login, against the claim. -/
theorem c3_counterexample :
    ¬ ((handleResponseError (.parsed (persistedAfterLogin (.obj [("id", .num 1)]) "T1"))
          projects401 (.failure 7)).redirected = true ∧
       isAbsent (handleResponseError (.parsed (persistedAfterLogin (.obj [("id", .num 1)]) "T1"))
          projects401 (.failure 7)).store = true) := by decide

/-- Claim C3 (amended): on an already-retried rejection, or a first 401
with the store key missing or its refresh token falsy, the original error
is propagated unchanged and the store is neither cleared nor redirected;
only when the refresh call itself fails is the store cleared and the
browser redirected — and then the refresh call's error is propagated, not
the original 401. -/
theorem c3_terminal_401_behaviour :
    (∀ store err refresh, err.config.retry = true →
      handleResponseError store err refresh =
        { result := .rejectedOriginal, store := store, refreshCalled := false,
          redirected := false, errConfigAfter := err.config }) ∧
    (∀ err refresh, err.status = some 401 → err.config.retry = false →
      handleResponseError .absent err refresh =
        { result := .rejectedOriginal, store := .absent, refreshCalled := false,
          redirected := false, errConfigAfter := { err.config with retry := true } }) ∧
    (∀ v err refresh rt, err.status = some 401 → err.config.retry = false →
      (jsGet v "state" >>= fun st => jsGet st "refreshToken") = .ok rt →
      truthy rt = false →
      handleResponseError (.parsed v) err refresh =
        { result := .rejectedOriginal, store := .parsed v, refreshCalled := false,
          redirected := false, errConfigAfter := { err.config with retry := true } }) ∧
    (∀ v err eid rt, err.status = some 401 → err.config.retry = false →
      (jsGet v "state" >>= fun st => jsGet st "refreshToken") = .ok rt →
      truthy rt = true →
      handleResponseError (.parsed v) err (.failure eid) =
        { result := .rejectedThrown (.refreshRejected eid), store := .absent,
          refreshCalled := true, redirected := true,
          errConfigAfter := { err.config with retry := true } }) :=
  ⟨fun store err refresh h =>
     handle_not_fresh401 store err refresh (fun hc => by simp [h] at hc),
   fun err refresh hs hr => handle_fresh401_absent err refresh hs hr,
   fun v err refresh rt hs hr hv ht =>
     handle_fresh401_falsy_rt v err refresh rt hs hr hv ht,
   fun v err eid rt hs hr hv ht =>
     handle_fresh401_refresh_failure v err eid rt hs hr hv ht⟩

/-- Claim C3 witness: with the concrete seeded store and a concrete
failing refresh call, the store is cleared, the browser redirected, and
the refresh error (not the original 401) is rejected. -/
theorem c3_witness :
    handleResponseError seededStore projects401 (.failure 7) =
      { result := .rejectedThrown (.refreshRejected 7), store := .absent,
        refreshCalled := true, redirected := true,
        errConfigAfter := { projectsReq with retry := true } } :=
  c3_terminal_401_behaviour.2.2.2
    (.obj [("state", .obj [("accessToken", .str "A1"), ("refreshToken", .str "R1")]), ("version", .num 0)])
    projects401 7 (.str "R1") rfl rfl rfl rfl

/-- Claim C5 counterexample: after a successful refresh whose response
rotates the refresh token to R2, the Token Store does not hold R2 — the
rotated token is discarded. -/
theorem c5_counterexample :
    storedRefreshToken (handleResponseError seededStore projects401
      (.success rotatedRefreshData)).store ≠ some "R2" := by decide

/-- Claim C5 (amended): after a successful refresh returning a new access
token A2 and a rotated refresh token R2, the replay is sent with A2 and
the Token Store holds A2 as access token while retaining its previous
refresh token R1; the rotated R2 is discarded. -/
theorem c5_rotated_refresh_token_discarded (u : JsVal) (a1 r1 a2 r2 : String)
    (err : ErrObj)
    (hr1 : r1 ≠ "") (ha2 : a2 ≠ "")
    (hs : err.status = some 401) (hr : err.config.retry = false) :
    (handleResponseError
        (.parsed (.obj [("state", .obj [("user", u), ("accessToken", .str a1), ("refreshToken", .str r1)]), ("version", .num 0)]))
        err
        (.success (.obj [("access_token", .str a2), ("refresh_token", .str r2)]))).result =
      .replayed { err.config with retry := true, authorization := some ("Bearer " ++ a2) } ∧
    storedAccessToken (handleResponseError
        (.parsed (.obj [("state", .obj [("user", u), ("accessToken", .str a1), ("refreshToken", .str r1)]), ("version", .num 0)]))
        err
        (.success (.obj [("access_token", .str a2), ("refresh_token", .str r2)]))).store = some a2 ∧
    storedRefreshToken (handleResponseError
        (.parsed (.obj [("state", .obj [("user", u), ("accessToken", .str a1), ("refreshToken", .str r1)]), ("version", .num 0)]))
        err
        (.success (.obj [("access_token", .str a2), ("refresh_token", .str r2)]))).store = some r1 := by
  have hmain := handle_fresh401_refresh_success
    (.obj [("state", .obj [("user", u), ("accessToken", .str a1), ("refreshToken", .str r1)]), ("version", .num 0)])
    err
    (.obj [("access_token", .str a2), ("refresh_token", .str r2)])
    (.str a2) (.str r1) hs hr rfl (by simp [truthy, hr1]) rfl
  rw [hmain]
  refine ⟨rfl, ?_, ?_⟩
  · simp [storedAccessToken, updateStateAccessToken, jsGet, lookupField, setField,
      isUndef, truthy, ha2, jsToString, bind, Except.bind]
  · simp [storedRefreshToken, updateStateAccessToken, jsGet, lookupField, setField,
      isUndef, truthy, hr1, jsToString, bind, Except.bind]

/-- Claim C5 witness: at concrete tokens A1, R1, A2, R2 the replay goes out
with A2 while the store keeps R1, not the rotated R2. -/
theorem c5_witness :
    storedRefreshToken (handleResponseError
        (.parsed (.obj [("state", .obj [("user", .num 1), ("accessToken", .str "A1"), ("refreshToken", .str "R1")]), ("version", .num 0)]))
        projects401
        (.success (.obj [("access_token", .str "A2"), ("refresh_token", .str "R2")]))).store = some "R1" :=
  (c5_rotated_refresh_token_discarded (.num 1) "A1" "R1" "A2" "R2" projects401
    (by decide) (by decide) rfl rfl).2.2

/-- Claim C2: after a successful login the store persists the access token
under the field token, but the request interceptor reads state.accessToken
from the auth-store key, so a request issued with the login session in
durable storage goes out with no Authorization header — against the claim
that it carries the stored token as a bearer credential. -/
theorem c2_login_token_not_attached :
    requestInterceptor (.parsed (persistedAfterLogin (.obj [("id", .num 1)]) "T1"))
        { url := "/projects", retry := false, authorization := none } =
      { url := "/projects", retry := false, authorization := none } ∧
    storedAccessToken (.parsed (persistedAfterLogin (.obj [("id", .num 1)]) "T1")) = none :=
  ⟨rfl, rfl⟩

/-- Claim C6: checkAuth invokes authApi.me(), a method the API client does
not define (it defines getMe), so the invocation throws before any request
is sent and checkAuth lands in its catch: even with a persisted token and
an identity endpoint that confirms the user, the token is removed and the
store reset to logged out — the session is never created. -/
theorem c6_checkAuth_identity_method_undefined :
    checkAuth (some "T1") (.ok (.obj [("email", .str "user@example.com")])) =
      (loggedOutState, none) ∧
    checkAuthMethodName ∉ authApiMethods :=
  ⟨rfl, by decide⟩

/-- Claim C8 counterexample: the state after a successful login holds an
access token but no refresh token, so the credential pair is neither fully
present nor fully absent — it is partially set. -/
theorem c8_counterexample :
    ¬ (pairFullyPresent (loginSuccessState (.obj [("id", .num 1)]) "A1") ∨
       pairFullyAbsent (loginSuccessState (.obj [("id", .num 1)]) "A1")) := by
  simp [pairFullyPresent, pairFullyAbsent, storeAccessToken, storeRefreshToken,
    loginSuccessState]

/-- Claim C8 (amended): the store has no refresh-token field, so after a
successful login the credential pair is partially set — access token
present, refresh token absent — while logout and every checkAuth
resolution leave both tokens absent. -/
theorem c8_no_refresh_token_in_store (u : JsVal) (a t : String)
    (m : Except Nat JsVal) :
    storeAccessToken (loginSuccessState u a) = some a ∧
    storeRefreshToken (loginSuccessState u a) = none ∧
    ¬ pairFullyPresent (loginSuccessState u a) ∧
    pairFullyAbsent logoutOp.1 ∧
    pairFullyAbsent (checkAuth none m).1 ∧
    pairFullyAbsent (checkAuth (some t) m).1 := by
  refine ⟨rfl, rfl, ?_, ?_, ?_, ?_⟩
  · simp [pairFullyPresent, storeRefreshToken]
  · simp [pairFullyAbsent, logoutOp, loggedOutState, storeAccessToken,
      storeRefreshToken]
  · simp [pairFullyAbsent, checkAuth, loggedOutState, storeAccessToken,
      storeRefreshToken]
  · by_cases ht : t = ""
    · simp [checkAuth, ht, pairFullyAbsent, loggedOutState, storeAccessToken,
        storeRefreshToken]
    · simp [checkAuth, ht, callAuthApi, checkAuthMethodName, authApiMethods,
        pairFullyAbsent, loggedOutState, storeAccessToken, storeRefreshToken]

/-- Claim C9: whenever the stored session value yields no truthy access
token — the key absent, its contents unparseable, or of an unexpected
shape — the request interceptor returns the request configuration
untouched and attaches no Authorization header; being a total function, it
never throws. -/
theorem c9_bad_store_tolerated (store : StoredVal) (cfg : ReqConfig)
    (hstore : hasTruthyAccess store = false) (hcfg : cfg.authorization = none) :
    requestInterceptor store cfg = cfg ∧
    (requestInterceptor store cfg).authorization = none := by
  have hmain : requestInterceptor store cfg = cfg := by
    cases store with
    | absent => rfl
    | malformed => rfl
    | parsed v =>
      simp only [hasTruthyAccess] at hstore
      unfold requestInterceptor
      cases hv : (jsGet v "state" >>= fun st => jsGet st "accessToken") with
      | error e => simp [hv]
      | ok tok =>
        rw [hv] at hstore
        dsimp only at hstore
        simp [hv, hstore]
  exact ⟨hmain, by rw [hmain]; exact hcfg⟩

/-- Claim C9 witness: a concrete unparseable stored value leaves a
concrete request untouched and without an Authorization header. -/
theorem c9_witness :
    requestInterceptor .malformed
        { url := "/projects", retry := false, authorization := none } =
      { url := "/projects", retry := false, authorization := none } :=
  (c9_bad_store_tolerated .malformed
    { url := "/projects", retry := false, authorization := none } rfl rfl).1

/-- Claim C10: the refresh request is issued through the bare axios
export, not the api instance: it carries no Authorization header, and the
response interceptor (whose rejection branch is the refresh flow) is not
registered on its client, so a 401 from the refresh endpoint cannot
re-enter the refresh flow. -/
theorem c10_refresh_call_not_intercepted (rt : JsVal) :
    (refreshCall rt).authorization = none ∧
    responseInterceptorApplies (refreshCall rt).client = false ∧
    (refreshCall rt).client ≠ .api :=
  ⟨rfl, rfl, by simp [refreshCall]⟩

end QoE
